import Mathlib

/-!
Shallow embedding of the SynApSec backend (Rust) core services, with
theorems checking the natural-language specification against the code.

Source files embedded:
- src/backend/src/models/finding.rs, user.rs, application.rs, finding_sca.rs (enums)
- src/backend/src/services/lifecycle.rs
- src/backend/src/services/fingerprint.rs (with a full SHA-256 model)
- src/backend/src/services/cross_dedup.rs
- src/backend/src/services/correlation.rs
- src/backend/src/services/risk_score.rs (f32 arithmetic modelled as exact rationals)
- src/backend/src/services/deduplication.rs (DB state modelled explicitly)
- src/backend/src/services/ingestion.rs (count bookkeeping of ingest_file)
- src/backend/src/parsers/tenable_was.rs (the parse_csv record loop)

Rust machine integers are modelled as Nat/Int with explicit `% 2^w` where
overflow matters; `Uuid` is modelled as Nat; fallible code returns Except.
-/

namespace Synapsec

/-- models/finding.rs: finding_category enum. -/
inductive FindingCategory where
  | Sast
  | Sca
  | Dast
deriving DecidableEq, Repr

/-- models/finding.rs: finding_status enum. -/
inductive FindingStatus where
  | New
  | Confirmed
  | InRemediation
  | Mitigated
  | Verified
  | Closed
  | FalsePositiveRequested
  | FalsePositive
  | RiskAccepted
  | DeferredRemediation
  | Invalidated
deriving DecidableEq, Repr, Fintype

/-- models/finding.rs: severity_level enum. -/
inductive SeverityLevel where
  | Critical
  | High
  | Medium
  | Low
  | Info
deriving DecidableEq, Repr

/-- models/finding.rs: confidence_level enum. -/
inductive ConfidenceLevel where
  | High
  | Medium
  | Low
deriving DecidableEq, Repr

/-- models/finding.rs: relationship_type enum. -/
inductive RelationshipType where
  | DuplicateOf
  | CorrelatedWith
  | GroupedUnder
  | SupersededBy
deriving DecidableEq, Repr

/-- models/user.rs: user_role enum. -/
inductive UserRole where
  | PlatformAdmin
  | AppSecAnalyst
  | AppSecManager
  | Developer
  | Executive
  | Auditor
  | ApiServiceAccount
deriving DecidableEq, Repr, Fintype

/-- models/application.rs: asset_criticality enum. -/
inductive AssetCriticality where
  | VeryHigh
  | High
  | MediumHigh
  | Medium
  | MediumLow
  | Low
deriving DecidableEq, Repr

/-- models/finding_sca.rs: exploit_maturity enum. -/
inductive ExploitMaturity where
  | ProofOfConcept
  | Functional
  | Weaponized
  | Unknown
deriving DecidableEq, Repr

/-- errors/mod.rs: AppError enum (payloads are the formatted messages). -/
inductive AppError where
  | NotFound (msg : String)
  | Validation (msg : String)
  | Unauthorized
  | Forbidden (msg : String)
  | Conflict (msg : String)
  | InvalidTransition (msg : String)
  | Database (msg : String)
  | Internal (msg : String)
deriving DecidableEq, Repr

-- ---------------------------------------------------------------------------
-- services/lifecycle.rs
-- ---------------------------------------------------------------------------

open FindingStatus UserRole in
/-- lifecycle.rs `is_valid_transition`: whether a status transition is a
valid edge of the state machine graph. -/
def is_valid_transition (from_ to_ : FindingStatus) : Bool :=
  match from_, to_ with
  | New, Confirmed => true
  | Confirmed, InRemediation => true
  | Confirmed, FalsePositive => true
  | Confirmed, FalsePositiveRequested => true
  | Confirmed, RiskAccepted => true
  | Confirmed, DeferredRemediation => true
  | FalsePositiveRequested, FalsePositive => true
  | FalsePositiveRequested, Confirmed => true
  | DeferredRemediation, InRemediation => true
  | InRemediation, Mitigated => true
  | Mitigated, Verified => true
  | Verified, Closed => true
  | RiskAccepted, Confirmed => true
  | Closed, New => true
  -- Invalidated can come from any state (admin only)
  | _, Invalidated => true
  | _, _ => false

open FindingStatus UserRole in
/-- lifecycle.rs `required_roles`: roles allowed to transition to a target status. -/
def required_roles (to_ : FindingStatus) : List UserRole :=
  match to_ with
  | RiskAccepted => [AppSecManager, PlatformAdmin]
  | DeferredRemediation => [AppSecManager, PlatformAdmin]
  | Invalidated => [PlatformAdmin]
  | FalsePositiveRequested => [Developer, AppSecAnalyst, AppSecManager, PlatformAdmin]
  | Mitigated => [Developer, AppSecAnalyst, AppSecManager, PlatformAdmin]
  | _ => [AppSecAnalyst, AppSecManager, PlatformAdmin]

/-- lifecycle.rs `has_required_role`. -/
def has_required_role (actor_role : UserRole) (target_status : FindingStatus) : Bool :=
  (required_roles target_status).contains actor_role

/-- Rust `#[derive(Debug)]` output for a `FindingStatus` value (variant name). -/
def statusDebug : FindingStatus → String
  | .New => "New"
  | .Confirmed => "Confirmed"
  | .InRemediation => "InRemediation"
  | .Mitigated => "Mitigated"
  | .Verified => "Verified"
  | .Closed => "Closed"
  | .FalsePositiveRequested => "FalsePositiveRequested"
  | .FalsePositive => "FalsePositive"
  | .RiskAccepted => "RiskAccepted"
  | .DeferredRemediation => "DeferredRemediation"
  | .Invalidated => "Invalidated"

/-- Rust `#[derive(Debug)]` output for a `UserRole` value (variant name). -/
def roleDebug : UserRole → String
  | .PlatformAdmin => "PlatformAdmin"
  | .AppSecAnalyst => "AppSecAnalyst"
  | .AppSecManager => "AppSecManager"
  | .Developer => "Developer"
  | .Executive => "Executive"
  | .Auditor => "Auditor"
  | .ApiServiceAccount => "ApiServiceAccount"

/-- `justification.as_ref().map_or(true, |j| j.trim().is_empty())`. -/
def justificationMissing (justification : Option String) : Bool :=
  match justification with
  | none => true
  | some j => j.trim.isEmpty

/-- lifecycle.rs `validate_transition`: validate all preconditions for a
transition (graph edge, then RBAC, then mandatory fields), returning the
first failure. `DateTime<Utc>` values are modelled as `Nat` (only presence
matters here). -/
def validate_transition (from_ to_ : FindingStatus) (actor_role : UserRole)
    (justification : Option String) (committed_date expiry_date : Option Nat) :
    Except AppError Unit := do
  -- 1. Check valid graph edge
  if !is_valid_transition from_ to_ then
    throw (AppError.InvalidTransition
      ("Cannot transition from " ++ statusDebug from_ ++ " to " ++ statusDebug to_))
  -- 2. Check RBAC
  else if !has_required_role actor_role to_ then
    throw (AppError.Forbidden
      ("Role " ++ roleDebug actor_role ++ " cannot transition to " ++ statusDebug to_))
  -- 3. Check required fields
  else if to_ = FindingStatus.RiskAccepted ∧ justificationMissing justification then
    throw (AppError.Validation "Risk acceptance requires justification")
  else if to_ = FindingStatus.RiskAccepted ∧ expiry_date = none then
    throw (AppError.Validation "Risk acceptance requires an expiry date")
  else if to_ = FindingStatus.DeferredRemediation ∧ committed_date = none then
    throw (AppError.Validation "Deferred remediation requires a committed date")
  else if to_ = FindingStatus.FalsePositive ∧ justificationMissing justification then
    throw (AppError.Validation "False positive requires justification")
  else
    pure ()

-- ---------------------------------------------------------------------------
-- services/fingerprint.rs, with a model of the sha2 crate (FIPS 180-4 SHA-256)
-- ---------------------------------------------------------------------------

namespace Sha256

/-- 2^32, the u32 modulus. -/
def M32 : Nat := 4294967296

/-- Rotate a 32-bit word right by `n` bits. -/
def rotr (n w : Nat) : Nat := (w / 2 ^ n + w % 2 ^ n * 2 ^ (32 - n)) % M32

/-- Shift a 32-bit word right by `n` bits. -/
def shr (n w : Nat) : Nat := w / 2 ^ n

/-- Bitwise complement of a 32-bit word. -/
def compl32 (w : Nat) : Nat := Nat.xor 4294967295 w

/-- SHA-256 Ch function. -/
def ch (x y z : Nat) : Nat := Nat.xor (Nat.land x y) (Nat.land (compl32 x) z)

/-- SHA-256 Maj function. -/
def maj (x y z : Nat) : Nat := Nat.xor (Nat.xor (Nat.land x y) (Nat.land x z)) (Nat.land y z)

/-- SHA-256 big sigma 0. -/
def bsig0 (x : Nat) : Nat := Nat.xor (Nat.xor (rotr 2 x) (rotr 13 x)) (rotr 22 x)

/-- SHA-256 big sigma 1. -/
def bsig1 (x : Nat) : Nat := Nat.xor (Nat.xor (rotr 6 x) (rotr 11 x)) (rotr 25 x)

/-- SHA-256 small sigma 0. -/
def ssig0 (x : Nat) : Nat := Nat.xor (Nat.xor (rotr 7 x) (rotr 18 x)) (shr 3 x)

/-- SHA-256 small sigma 1. -/
def ssig1 (x : Nat) : Nat := Nat.xor (Nat.xor (rotr 17 x) (rotr 19 x)) (shr 10 x)

/-- SHA-256 round constants (FIPS 180-4 §4.2.2, written in decimal). -/
def K : Array Nat := #[
  1116352408, 1899447441, 3049323471, 3921009573, 961987163, 1508970993,
  2453635748, 2870763221, 3624381080, 310598401, 607225278, 1426881987,
  1925078388, 2162078206, 2614888103, 3248222580, 3835390401, 4022224774,
  264347078, 604807628, 770255983, 1249150122, 1555081692, 1996064986,
  2554220882, 2821834349, 2952996808, 3210313671, 3336571891, 3584528711,
  113926993, 338241895, 666307205, 773529912, 1294757372, 1396182291,
  1695183700, 1986661051, 2177026350, 2456956037, 2730485921, 2820302411,
  3259730800, 3345764771, 3516065817, 3600352804, 4094571909, 275423344,
  430227734, 506948616, 659060556, 883997877, 958139571, 1322822218,
  1537002063, 1747873779, 1955562222, 2024104815, 2227730452, 2361852424,
  2428436474, 2756734187, 3204031479, 3329325298]

/-- Internal hash state: eight 32-bit words. -/
structure Digest8 where
  h0 : Nat
  h1 : Nat
  h2 : Nat
  h3 : Nat
  h4 : Nat
  h5 : Nat
  h6 : Nat
  h7 : Nat
deriving Repr, DecidableEq

/-- SHA-256 initial hash value (FIPS 180-4 §5.3.3, written in decimal). -/
def initH : Digest8 :=
  ⟨1779033703, 3144134277, 1013904242, 2773480762,
   1359893119, 2600822924, 528734635, 1541459225⟩

/-- Group a byte list into big-endian 32-bit words, four bytes per word. -/
def bytesToWords : List Nat → List Nat
  | a :: b :: c :: d :: rest => (((a * 256 + b) * 256 + c) * 256 + d) :: bytesToWords rest
  | _ => []

/-- Extend the 16 message words of a block to the 64-entry message schedule. -/
def extendSchedule (ws : Array Nat) : Array Nat :=
  (List.range 48).foldl
    (fun ws i =>
      let t := i + 16
      ws.push ((ssig1 ws[t-2]! + ws[t-7]! + ssig0 ws[t-15]! + ws[t-16]!) % M32))
    ws

/-- One round of the SHA-256 compression loop. -/
def round (k w : Nat) (st : Digest8) : Digest8 :=
  let t1 := (st.h7 + bsig1 st.h4 + ch st.h4 st.h5 st.h6 + k + w) % M32
  let t2 := (bsig0 st.h0 + maj st.h0 st.h1 st.h2) % M32
  ⟨(t1 + t2) % M32, st.h0, st.h1, st.h2, (st.h3 + t1) % M32, st.h4, st.h5, st.h6⟩

/-- Compress one 64-byte block into the running hash state. -/
def compressBlock (H : Digest8) (block : List Nat) : Digest8 :=
  let ws := extendSchedule (bytesToWords block).toArray
  let st := (List.range 64).foldl (fun st t => round K[t]! ws[t]! st) H
  ⟨(H.h0 + st.h0) % M32, (H.h1 + st.h1) % M32, (H.h2 + st.h2) % M32, (H.h3 + st.h3) % M32,
   (H.h4 + st.h4) % M32, (H.h5 + st.h5) % M32, (H.h6 + st.h6) % M32, (H.h7 + st.h7) % M32⟩

/-- Big-endian 8-byte encoding of the message bit length. -/
def lenBytes (bitLen : Nat) : List Nat :=
  [bitLen / 2 ^ 56 % 256, bitLen / 2 ^ 48 % 256, bitLen / 2 ^ 40 % 256, bitLen / 2 ^ 32 % 256,
   bitLen / 2 ^ 24 % 256, bitLen / 2 ^ 16 % 256, bitLen / 2 ^ 8 % 256, bitLen % 256]

/-- SHA-256 padding: append 0x80, zeros to 56 mod 64, then the 64-bit bit length. -/
def padMessage (msg : List Nat) : List Nat :=
  let len := msg.length
  let padZeros := (120 - (len + 1) % 64) % 64
  msg ++ 0x80 :: (List.replicate padZeros 0 ++ lenBytes (len * 8))

/-- Split a byte list into 64-byte blocks (`fuel` bounds the recursion so the
function reduces definitionally; `l.length` steps always suffice). -/
def chunks64Fuel : Nat → List Nat → List (List Nat)
  | _, [] => []
  | 0, l => [l]
  | fuel + 1, x :: xs => (x :: xs).take 64 :: chunks64Fuel fuel ((x :: xs).drop 64)

/-- Split a byte list into 64-byte blocks. -/
def chunks64 (l : List Nat) : List (List Nat) :=
  chunks64Fuel l.length l

/-- Big-endian byte decomposition of a 32-bit word. -/
def wordBytes (w : Nat) : List Nat :=
  [w / 2 ^ 24 % 256, w / 2 ^ 16 % 256, w / 2 ^ 8 % 256, w % 256]

/-- SHA-256 of a byte sequence, as a 32-byte digest. -/
def sha256 (msg : List Nat) : List Nat :=
  let H := (chunks64 (padMessage msg)).foldl compressBlock initH
  wordBytes H.h0 ++ wordBytes H.h1 ++ wordBytes H.h2 ++ wordBytes H.h3 ++
  wordBytes H.h4 ++ wordBytes H.h5 ++ wordBytes H.h6 ++ wordBytes H.h7

/-- Lowercase hex digit for a nibble. -/
def hexDigit (n : Nat) : Char :=
  if n < 10 then Char.ofNat ('0'.toNat + n) else Char.ofNat ('a'.toNat + (n - 10))

/-- Lowercase hex encoding of a byte list (the `hex::encode` of the hex crate). -/
def hexEncode (bytes : List Nat) : String :=
  ⟨(bytes.map (fun b => [hexDigit (b / 16), hexDigit (b % 16)])).flatten⟩

end Sha256

/-- UTF-8 bytes of a string (Rust `str::as_bytes`; this is the byte list
underlying `String.toUTF8`). -/
def strBytes (s : String) : List Nat :=
  (s.data.flatMap String.utf8EncodeChar).map (fun b => b.toNat)

/-- fingerprint.rs `hash`: SHA-256 a string and return the hex-encoded digest. -/
def fingerprintHash (input : String) : String :=
  Sha256.hexEncode (Sha256.sha256 (strBytes input))

/-- Preimage string for a SAST fingerprint: `"SAST:{app_code}:{file_path}:{rule_id}:{branch}"`. -/
def sastPreimage (app_code file_path rule_id branch : String) : String :=
  "SAST:" ++ app_code ++ ":" ++ file_path ++ ":" ++ rule_id ++ ":" ++ branch

/-- Preimage string for an SCA fingerprint:
`"SCA:{app_code}:{package_name}:{package_version}:{cve_id}"`. -/
def scaPreimage (app_code package_name package_version cve_id : String) : String :=
  "SCA:" ++ app_code ++ ":" ++ package_name ++ ":" ++ package_version ++ ":" ++ cve_id

/-- Preimage string for a DAST fingerprint:
`"DAST:{app_code}:{target_url}:{http_method}:{parameter}"`. -/
def dastPreimage (app_code target_url http_method parameter : String) : String :=
  "DAST:" ++ app_code ++ ":" ++ target_url ++ ":" ++ http_method ++ ":" ++ parameter

/-- fingerprint.rs `compute_sast`. -/
def compute_sast (app_code file_path rule_id branch : String) : String :=
  fingerprintHash (sastPreimage app_code file_path rule_id branch)

/-- fingerprint.rs `compute_sca`. -/
def compute_sca (app_code package_name package_version cve_id : String) : String :=
  fingerprintHash (scaPreimage app_code package_name package_version cve_id)

/-- fingerprint.rs `compute_dast`. -/
def compute_dast (app_code target_url http_method parameter : String) : String :=
  fingerprintHash (dastPreimage app_code target_url http_method parameter)

-- ---------------------------------------------------------------------------
-- services/cross_dedup.rs
-- ---------------------------------------------------------------------------

/-- cross_dedup.rs `CrossDedupCandidate` (`Uuid` modelled as `Nat`,
`i32` line numbers as `Int`). -/
structure CrossDedupCandidate where
  id : Nat
  category : FindingCategory
  application_id : Option Nat
  source_tool : String
  cve_ids : List String
  cwe_ids : List String
  package_name : Option String
  file_path : Option String
  line_number : Option Int
  branch : Option String
  target_url : Option String
  parameter : Option String
deriving Repr

/-- cross_dedup.rs `CrossDedupMatch`. -/
structure CrossDedupMatch where
  finding_a_id : Nat
  finding_b_id : Nat
  confidence : ConfidenceLevel
  match_reason : String
deriving Repr, DecidableEq

/-- cross_dedup.rs / correlation.rs `has_common_id`: whether two ID lists
share at least one common element. -/
def has_common_id (a b : List String) : Bool :=
  a.any (fun id => b.contains id)

/-- cross_dedup.rs `check_sca`: CVE intersection + optional package match. -/
def check_sca (a b : CrossDedupCandidate) : Option CrossDedupMatch :=
  if !has_common_id a.cve_ids b.cve_ids then
    none
  else
    let same_package : Bool :=
      match a.package_name, b.package_name with
      | some pa, some pb => pa = pb
      | _, _ => false
    let (confidence, match_reason) :=
      if same_package then
        (ConfidenceLevel.High, "Same CVE and package name across tools")
      else
        (ConfidenceLevel.Medium, "Same CVE across tools (different or missing package)")
    some ⟨a.id, b.id, confidence, match_reason⟩

/-- cross_dedup.rs `LINE_PROXIMITY_THRESHOLD`: maximum line distance for a
high-confidence SAST match. -/
def LINE_PROXIMITY_THRESHOLD : Int := 5

/-- cross_dedup.rs `check_sast`: CWE + file + line proximity + branch. -/
def check_sast (a b : CrossDedupCandidate) : Option CrossDedupMatch := do
  if !has_common_id a.cwe_ids b.cwe_ids then
    none
  else do
    -- Both must have a branch; branches must match
    let branch_a ← a.branch
    let branch_b ← b.branch
    if branch_a ≠ branch_b then
      none
    else do
      -- Both must have file_path; paths must match exactly
      let file_a ← a.file_path
      let file_b ← b.file_path
      if file_a ≠ file_b then
        none
      else
        let nearby_lines : Bool :=
          match a.line_number, b.line_number with
          | some la, some lb => |la - lb| ≤ LINE_PROXIMITY_THRESHOLD
          | _, _ => false
        let (confidence, match_reason) :=
          if nearby_lines then
            (ConfidenceLevel.High, "Same CWE, file, branch, and nearby line across tools")
          else
            (ConfidenceLevel.Medium, "Same CWE, file, and branch across tools (different line)")
        some ⟨a.id, b.id, confidence, match_reason⟩

/-- cross_dedup.rs `check_dast`: CWE + target URL + optional parameter. -/
def check_dast (a b : CrossDedupCandidate) : Option CrossDedupMatch := do
  if !has_common_id a.cwe_ids b.cwe_ids then
    none
  else do
    -- Both must have target_url; URLs must match
    let url_a ← a.target_url
    let url_b ← b.target_url
    if url_a ≠ url_b then
      none
    else
      let same_parameter : Bool :=
        match a.parameter, b.parameter with
        | some pa, some pb => pa = pb
        | _, _ => false
      let (confidence, match_reason) :=
        if same_parameter then
          (ConfidenceLevel.High, "Same CWE, target URL, and parameter across tools")
        else
          (ConfidenceLevel.Medium, "Same CWE and target URL across tools (no parameter match)")
      some ⟨a.id, b.id, confidence, match_reason⟩

/-- cross_dedup.rs `check_cross_dedup`: check if two findings from different
tools are cross-tool duplicates. -/
def check_cross_dedup (a b : CrossDedupCandidate) : Option CrossDedupMatch :=
  -- Guard: must be same category
  if a.category ≠ b.category then
    none
  -- Guard: must be different source tool
  else if a.source_tool = b.source_tool then
    none
  else
    -- Guard: must have same application_id (both Some and equal)
    match a.application_id, b.application_id with
    | some app_a, some app_b =>
      if app_a = app_b then
        match a.category with
        | FindingCategory.Sca => check_sca a b
        | FindingCategory.Sast => check_sast a b
        | FindingCategory.Dast => check_dast a b
      else none
    | _, _ => none

-- ---------------------------------------------------------------------------
-- services/correlation.rs
-- ---------------------------------------------------------------------------

/-- correlation.rs `CorrelationCandidate` (`Uuid` modelled as `Nat`). -/
structure CorrelationCandidate where
  id : Nat
  category : FindingCategory
  application_id : Option Nat
  source_tool : String
  cve_ids : List String
  cwe_ids : List String
  rule_id : Option String
  file_path : Option String
  branch : Option String
  target_url : Option String
  parameter : Option String
  package_name : Option String
deriving Repr

/-- correlation.rs `CorrelationMatch`. -/
structure CorrelationMatch where
  existing_finding_id : Nat
  rule_name : String
  relationship_type : RelationshipType
  confidence : ConfidenceLevel
  match_reason : String
deriving Repr, DecidableEq

/-- correlation.rs `same_app`: both candidates belong to the same application. -/
def same_app (a b : CorrelationCandidate) : Bool :=
  match a.application_id, b.application_id with
  | some app_a, some app_b => app_a = app_b
  | _, _ => false

/-- correlation.rs `PRODUCTION_BRANCH`. -/
def PRODUCTION_BRANCH : String := "main"

/-- correlation.rs `is_production_branch`. -/
def is_production_branch (candidate : CorrelationCandidate) : Bool :=
  candidate.branch = some PRODUCTION_BRANCH

/-- correlation.rs `is_sca_or_dast`. -/
def is_sca_or_dast (c : CorrelationCandidate) : Bool :=
  match c.category with
  | FindingCategory.Sca | FindingCategory.Dast => true
  | _ => false

/-- correlation.rs `is_sast_or_dast`. -/
def is_sast_or_dast (c : CorrelationCandidate) : Bool :=
  match c.category with
  | FindingCategory.Sast | FindingCategory.Dast => true
  | _ => false

/-- correlation.rs `identify_pair`: which candidate matches which category in a
two-category pair. -/
def identify_pair (new existing : CorrelationCandidate) (cat_a cat_b : FindingCategory) :
    Option (CorrelationCandidate × CorrelationCandidate) :=
  if new.category = cat_a ∧ existing.category = cat_b then
    some (new, existing)
  else if new.category = cat_b ∧ existing.category = cat_a then
    some (existing, new)
  else
    none

/-- Whether `needle` occurs at the start of `hay`. -/
def listStarts : List Char → List Char → Bool
  | [], _ => true
  | _ :: _, [] => false
  | c :: cs, d :: ds => c = d && listStarts cs ds

/-- Whether `needle` occurs contiguously anywhere in `hay`. -/
def listHasSub (needle hay : List Char) : Bool :=
  match hay with
  | [] => needle.isEmpty
  | _ :: t => listStarts needle hay || listHasSub needle t

/-- Case-insensitive substring test used by CR-3
(`file.to_lowercase().contains(&package.to_lowercase())`). -/
def containsSubstr (haystack needle : String) : Bool :=
  listHasSub needle.toLower.data haystack.toLower.data

/-- correlation.rs `try_cr1`: same CVE cross-category (SCA <-> DAST). -/
def try_cr1 (new existing : CorrelationCandidate) : Option CorrelationMatch :=
  -- Must be different categories
  if new.category = existing.category then none
  -- Both must be SCA or DAST
  else if !is_sca_or_dast new || !is_sca_or_dast existing then none
  else if !same_app new existing then none
  else if !has_common_id new.cve_ids existing.cve_ids then none
  else
    some ⟨existing.id, "CR-1", RelationshipType.CorrelatedWith, ConfidenceLevel.High,
      "Same CVE across SCA and DAST categories"⟩

/-- correlation.rs `try_cr2`: same CWE cross-category (SAST <-> DAST),
SAST on the production branch. -/
def try_cr2 (new existing : CorrelationCandidate) : Option CorrelationMatch :=
  if new.category = existing.category then none
  else if !is_sast_or_dast new || !is_sast_or_dast existing then none
  else if !same_app new existing then none
  else if !has_common_id new.cwe_ids existing.cwe_ids then none
  else
    -- The SAST finding must be on the production branch
    let sast_candidate := if new.category = FindingCategory.Sast then new else existing
    if !is_production_branch sast_candidate then none
    else
      some ⟨existing.id, "CR-2", RelationshipType.CorrelatedWith, ConfidenceLevel.Medium,
        "Same CWE across SAST (production) and DAST categories"⟩

/-- correlation.rs `try_cr3`: SCA package matched to SAST import. -/
def try_cr3 (new existing : CorrelationCandidate) : Option CorrelationMatch := do
  if new.category = existing.category then none
  else do
    -- Identify which is SCA and which is SAST
    let (sca, sast) ← identify_pair new existing FindingCategory.Sca FindingCategory.Sast
    if !same_app new existing then none
    else if !is_production_branch sast then none
    else do
      let package ← sca.package_name
      let file ← sast.file_path.orElse (fun _ => sast.rule_id)
      -- Case-insensitive substring match
      if !containsSubstr file package then none
      else
        some ⟨existing.id, "CR-3", RelationshipType.CorrelatedWith, ConfidenceLevel.Medium,
          "SCA package '" ++ package ++ "' found in SAST file path/rule"⟩

/-- correlation.rs `try_cr4`: DAST endpoint matched to SAST handler. -/
def try_cr4 (new existing : CorrelationCandidate) : Option CorrelationMatch := do
  if new.category = existing.category then none
  else do
    let (dast, sast) ← identify_pair new existing FindingCategory.Dast FindingCategory.Sast
    if !same_app new existing then none
    else if !is_production_branch sast then none
    else do
      -- DAST must have target_url, SAST must have file_path
      let _ ← dast.target_url
      let _ ← sast.file_path
      -- They must share at least one CWE
      if !has_common_id new.cwe_ids existing.cwe_ids then none
      else
        some ⟨existing.id, "CR-4", RelationshipType.CorrelatedWith, ConfidenceLevel.Medium,
          "DAST endpoint and SAST handler share CWE in same application"⟩

/-- correlation.rs `try_cr5`: same SAST rule_id across multiple files. -/
def try_cr5 (new existing : CorrelationCandidate) : Option CorrelationMatch := do
  if new.category ≠ FindingCategory.Sast ∨ existing.category ≠ FindingCategory.Sast then
    none
  else if !same_app new existing then none
  else do
    -- Same branch (both must be Some and equal)
    let branch_new ← new.branch
    let branch_existing ← existing.branch
    if branch_new ≠ branch_existing then none
    else do
      -- Same rule_id (both must be Some and equal)
      let rule_new ← new.rule_id
      let rule_existing ← existing.rule_id
      if rule_new ≠ rule_existing then none
      else do
        -- Different file_path (both must be Some and not equal)
        let file_new ← new.file_path
        let file_existing ← existing.file_path
        if file_new = file_existing then none
        else
          some ⟨existing.id, "CR-5", RelationshipType.GroupedUnder, ConfidenceLevel.High,
            "Same SAST rule '" ++ rule_new ++ "' in different files"⟩

/-- correlation.rs `try_cr6`: same CWE in same file (SAST). -/
def try_cr6 (new existing : CorrelationCandidate) : Option CorrelationMatch := do
  if new.category ≠ FindingCategory.Sast ∨ existing.category ≠ FindingCategory.Sast then
    none
  else if !same_app new existing then none
  else do
    -- Same branch
    let branch_new ← new.branch
    let branch_existing ← existing.branch
    if branch_new ≠ branch_existing then none
    -- Must share at least one CWE
    else if !has_common_id new.cwe_ids existing.cwe_ids then none
    else do
      -- Same file_path (both must be Some and equal)
      let file_new ← new.file_path
      let file_existing ← existing.file_path
      if file_new ≠ file_existing then none
      else
        -- Different rule_id OR different finding IDs (to avoid self-matching)
        let different_rule : Bool :=
          match new.rule_id, existing.rule_id with
          | some rn, some re => rn ≠ re
          | _, _ => true
        if !different_rule ∧ new.id = existing.id then none
        else
          some ⟨existing.id, "CR-6", RelationshipType.GroupedUnder, ConfidenceLevel.High,
            "Same CWE in same SAST file"⟩

/-- correlation.rs `correlate_finding`: apply the six correlation rules to a
new finding against each existing finding, collecting all matches. -/
def correlate_finding (new_finding : CorrelationCandidate)
    (existing_findings : List CorrelationCandidate) : List CorrelationMatch :=
  let rules : List (CorrelationCandidate → CorrelationCandidate → Option CorrelationMatch) :=
    [try_cr1, try_cr2, try_cr3, try_cr4, try_cr5, try_cr6]
  existing_findings.flatMap (fun existing =>
    rules.filterMap (fun rule => rule new_finding existing))

-- ---------------------------------------------------------------------------
-- services/risk_score.rs (f32 arithmetic modelled as exact rationals)
-- ---------------------------------------------------------------------------

/-- risk_score.rs `SastTaintConfidence`. -/
inductive SastTaintConfidence where
  | High
  | Medium
  | Low
deriving DecidableEq, Repr

/-- risk_score.rs `ExploitabilityInput`. -/
inductive ExploitabilityInput where
  | ScaMaturity (maturity : ExploitMaturity)
  | EpssScore (score : ℚ)
  | KnownExploited
  | DastConfirmed
  | SastConfidence (confidence : SastTaintConfidence)
  | Unknown
deriving DecidableEq, Repr

/-- risk_score.rs `FindingAgeInput`. -/
structure FindingAgeInput where
  sla_ratio : Option ℚ
deriving DecidableEq, Repr

/-- risk_score.rs `CorrelationInput`. -/
structure CorrelationInput where
  distinct_tool_count : Nat
  correlated_finding_count : Nat
deriving DecidableEq, Repr

/-- risk_score.rs `RiskWeights`. -/
structure RiskWeights where
  normalized_severity : ℚ
  asset_criticality : ℚ
  exploitability : ℚ
  finding_age : ℚ
  correlation_density : ℚ
deriving DecidableEq, Repr

/-- risk_score.rs `RiskWeights::default`. -/
def defaultRiskWeights : RiskWeights :=
  ⟨30/100, 25/100, 20/100, 15/100, 10/100⟩

/-- risk_score.rs `RiskFactors`. -/
structure RiskFactors where
  severity : SeverityLevel
  asset_criticality : Option AssetCriticality
  exploitability : ExploitabilityInput
  finding_age : FindingAgeInput
  correlation_density : CorrelationInput
deriving DecidableEq, Repr

/-- risk_score.rs `PriorityLevel`. -/
inductive PriorityLevel where
  | P1
  | P2
  | P3
  | P4
  | P5
deriving DecidableEq, Repr

/-- risk_score.rs `FactorScores`. -/
structure FactorScores where
  severity : ℚ
  asset_criticality : ℚ
  exploitability : ℚ
  finding_age : ℚ
  correlation_density : ℚ
deriving DecidableEq, Repr

/-- risk_score.rs `RiskScore`. -/
structure RiskScore where
  composite_score : ℚ
  priority : PriorityLevel
  factor_scores : FactorScores
deriving DecidableEq, Repr

/-- risk_score.rs `severity_to_score`. -/
def severity_to_score : SeverityLevel → ℚ
  | SeverityLevel.Critical => 100
  | SeverityLevel.High => 80
  | SeverityLevel.Medium => 50
  | SeverityLevel.Low => 25
  | SeverityLevel.Info => 5

/-- risk_score.rs `criticality_to_score` (55.0 default when no app context). -/
def criticality_to_score : Option AssetCriticality → ℚ
  | some AssetCriticality.VeryHigh => 100
  | some AssetCriticality.High => 85
  | some AssetCriticality.MediumHigh => 70
  | some AssetCriticality.Medium => 55
  | some AssetCriticality.MediumLow => 35
  | some AssetCriticality.Low => 15
  | none => 55

/-- risk_score.rs `exploitability_to_score`. -/
def exploitability_to_score : ExploitabilityInput → ℚ
  | ExploitabilityInput.KnownExploited => 100
  | ExploitabilityInput.DastConfirmed => 100
  | ExploitabilityInput.ScaMaturity ExploitMaturity.Weaponized => 100
  | ExploitabilityInput.ScaMaturity ExploitMaturity.Functional => 80
  | ExploitabilityInput.ScaMaturity ExploitMaturity.ProofOfConcept => 50
  | ExploitabilityInput.ScaMaturity ExploitMaturity.Unknown => 20
  | ExploitabilityInput.EpssScore score => max 0 (min 100 (score * 100))
  | ExploitabilityInput.SastConfidence SastTaintConfidence.High => 80
  | ExploitabilityInput.SastConfidence SastTaintConfidence.Medium => 50
  | ExploitabilityInput.SastConfidence SastTaintConfidence.Low => 20
  | ExploitabilityInput.Unknown => 20

/-- risk_score.rs `finding_age_to_score`. -/
def finding_age_to_score (input : FindingAgeInput) : ℚ :=
  match input.sla_ratio with
  | some ratio =>
    if ratio ≥ 2 then 100
    else if ratio ≥ 1 then 80
    else if ratio ≥ 75/100 then 60
    else if ratio ≥ 50/100 then 40
    else 20
  | none => 20

/-- risk_score.rs `correlation_to_score`. -/
def correlation_to_score (input : CorrelationInput) : ℚ :=
  if input.distinct_tool_count ≥ 3 ∨ input.correlated_finding_count ≥ 3 then 100
  else if input.distinct_tool_count ≥ 2 then 70
  else if input.correlated_finding_count ≥ 2 then 40
  else 10

/-- risk_score.rs `score_to_priority`. -/
def score_to_priority (score : ℚ) : PriorityLevel :=
  if score ≥ 80 then PriorityLevel.P1
  else if score ≥ 60 then PriorityLevel.P2
  else if score ≥ 40 then PriorityLevel.P3
  else if score ≥ 20 then PriorityLevel.P4
  else PriorityLevel.P5

/-- Rust `f32::clamp(0.0, 100.0)`. -/
def clamp100 (x : ℚ) : ℚ := max 0 (min 100 x)

/-- Rust `(x * 10.0).round() / 10.0`: round to one decimal. For the
non-negative values produced here, `f32::round` (ties away from zero)
agrees with `round` (ties up). -/
def roundTo1 (x : ℚ) : ℚ := (round (x * 10) : ℚ) / 10

/-- The weighted sum of the five factor subscores. -/
def weightedSum (factors : RiskFactors) (weights : RiskWeights) : ℚ :=
  severity_to_score factors.severity * weights.normalized_severity
    + criticality_to_score factors.asset_criticality * weights.asset_criticality
    + exploitability_to_score factors.exploitability * weights.exploitability
    + finding_age_to_score factors.finding_age * weights.finding_age
    + correlation_to_score factors.correlation_density * weights.correlation_density

/-- risk_score.rs `compute`: composite risk score. -/
def compute (factors : RiskFactors) (weights : RiskWeights) : RiskScore :=
  let severity_score := severity_to_score factors.severity
  let criticality_score := criticality_to_score factors.asset_criticality
  let exploit_score := exploitability_to_score factors.exploitability
  let age_score := finding_age_to_score factors.finding_age
  let correlation_score := correlation_to_score factors.correlation_density
  let composite := severity_score * weights.normalized_severity
    + criticality_score * weights.asset_criticality
    + exploit_score * weights.exploitability
    + age_score * weights.finding_age
    + correlation_score * weights.correlation_density
  -- Clamp to 0-100
  let composite := clamp100 composite
  let priority := score_to_priority composite
  { composite_score := roundTo1 composite
    priority := priority
    factor_scores :=
      { severity := severity_score
        asset_criticality := criticality_score
        exploitability := exploit_score
        finding_age := age_score
        correlation_density := correlation_score } }

-- ---------------------------------------------------------------------------
-- services/deduplication.rs (database state modelled explicitly)
-- ---------------------------------------------------------------------------

/-- A `findings` table row, as touched by deduplication. The columns the
dedup SQL never names in a SET clause are collected in `payload` (their
type is arbitrary, so no update can depend on or change them). Timestamps
are modelled as `Nat`. -/
structure DbFinding (α : Type) where
  id : Nat
  fingerprint : String
  status : FindingStatus
  created_at : Nat
  last_seen : Nat
  updated_at : Nat
  payload : α
deriving Repr

/-- A `finding_history` table row as inserted by this service. -/
structure HistoryRow where
  finding_id : Nat
  action : String
  field_changed : String
  old_value : String
  new_value : String
  actor_id : Nat
  actor_name : String
  justification : String
deriving Repr, DecidableEq

/-- Database state visible to deduplication. -/
structure Db (α : Type) where
  findings : List (DbFinding α)
  history : List HistoryRow
deriving Repr

/-- deduplication.rs `DedupResult`. -/
inductive DedupResult where
  | New
  | Updated (id : Nat)
  | Reopened (id : Nat)
deriving DecidableEq, Repr

/-- `SELECT * FROM findings WHERE fingerprint = $1 ORDER BY created_at DESC
LIMIT 1`: the most recently created finding with the given fingerprint. -/
def latestByFingerprint (rows : List (DbFinding α)) (fp : String) : Option (DbFinding α) :=
  (rows.filter (fun f => f.fingerprint = fp)).foldl
    (fun acc f =>
      match acc with
      | none => some f
      | some g => if f.created_at > g.created_at then some f else some g)
    none

/-- deduplication.rs `touch_last_seen`:
`UPDATE findings SET last_seen = NOW(), updated_at = NOW() WHERE id = $1`. -/
def touch_last_seen (db : Db α) (finding_id now : Nat) : Db α :=
  { db with
    findings := db.findings.map (fun f =>
      if f.id = finding_id then { f with last_seen := now, updated_at := now } else f) }

/-- deduplication.rs `reopen_finding`: set status back to New, update
last_seen, and insert a history row. -/
def reopen_finding (db : Db α) (finding_id acted_by now : Nat) : Db α :=
  { findings := db.findings.map (fun f =>
      if f.id = finding_id then
        { f with status := FindingStatus.New, last_seen := now, updated_at := now }
      else f)
    history := db.history ++
      [⟨finding_id, "status_change", "status", "Closed", "New", acted_by, "system",
        "Automatically reopened: fingerprint redetected in new scan"⟩] }

/-- deduplication.rs `check_and_apply`: check a fingerprint against existing
findings and apply dedup logic, returning the outcome and the new DB state. -/
def check_and_apply (db : Db α) (fingerprint : String) (acted_by now : Nat) :
    DedupResult × Db α :=
  match latestByFingerprint db.findings fingerprint with
  | none => (DedupResult.New, db)
  | some finding =>
    if finding.status = FindingStatus.Closed then
      -- Reopen closed finding
      (DedupResult.Reopened finding.id, reopen_finding db finding.id acted_by now)
    else
      -- Update last_seen on the existing open finding
      (DedupResult.Updated finding.id, touch_last_seen db finding.id now)

-- ---------------------------------------------------------------------------
-- services/ingestion.rs (count bookkeeping of ingest_file)
-- ---------------------------------------------------------------------------

/-- parsers/mod.rs `ParseError`. -/
structure ParseError where
  record_index : Nat
  field : String
  message : String
deriving Repr, DecidableEq

/-- ingestion.rs `ProcessOutcome`. -/
inductive ProcessOutcome where
  | Created
  | Deduplicated
  | Reopened
deriving DecidableEq, Repr

/-- ingestion.rs `IngestionError`. -/
structure IngestionError where
  record_index : Nat
  stage : String
  message : String
deriving Repr, DecidableEq

/-- ingestion.rs `IngestionResult` (the count fields and error details). -/
structure IngestionResult where
  source_tool : String
  total_parsed : Nat
  new_findings : Nat
  updated_findings : Nat
  reopened_findings : Nat
  duplicates : Nat
  quarantined : Nat
  error_count : Nat
  error_details : List IngestionError
deriving Repr, DecidableEq

/-- The `ingestion_logs` row inserted by ingestion.rs `log_ingestion`. -/
structure IngestionLogRow where
  source_tool : String
  total_records : Nat
  new_findings : Nat
  updated_findings : Nat
  duplicates : Nat
  errors : Nat
  quarantined : Nat
  status : String
  error_details : List IngestionError
deriving Repr, DecidableEq

/-- The per-finding loop of ingestion.rs `ingest_file` (step 3): count each
`process_finding` outcome, recording failures as ingest-stage errors with
their record index. The DB-dependent `process_finding` results are the
`outcomes` input, one per parsed finding, in parser order. -/
def processLoop (i : Nat) :
    List (Except String ProcessOutcome) → Nat × Nat × Nat × List IngestionError
  | [] => (0, 0, 0, [])
  | o :: rest =>
    let p := processLoop (i + 1) rest
    match o with
    | Except.ok ProcessOutcome.Created => (p.1 + 1, p.2.1, p.2.2.1, p.2.2.2)
    | Except.ok ProcessOutcome.Deduplicated => (p.1, p.2.1 + 1, p.2.2.1, p.2.2.2)
    | Except.ok ProcessOutcome.Reopened => (p.1, p.2.1, p.2.2.1 + 1, p.2.2.2)
    | Except.error msg => (p.1, p.2.1, p.2.2.1, ⟨i, "ingest", msg⟩ :: p.2.2.2)

/-- ingestion.rs `ingest_file`, counts and log row: collect parse errors,
run the per-finding loop, and build both the returned `IngestionResult`
and the inserted `ingestion_logs` row. -/
def ingest_file (source_tool : String) (parseErrors : List ParseError)
    (outcomes : List (Except String ProcessOutcome)) :
    IngestionResult × IngestionLogRow :=
  -- Collect parse errors
  let parseStageErrors : List IngestionError :=
    parseErrors.map (fun e => ⟨e.record_index, "parse", e.field ++ ": " ++ e.message⟩)
  let total_parsed := outcomes.length
  -- Process each parsed finding through the pipeline
  let p := processLoop 0 outcomes
  let new_findings := p.1
  let updated_findings := p.2.1
  let reopened_findings := p.2.2.1
  let ingestErrors := p.2.2.2
  let errors := parseStageErrors ++ ingestErrors
  -- Log ingestion event (log_ingestion)
  let logRow : IngestionLogRow :=
    { source_tool := source_tool
      total_records := total_parsed
      new_findings := new_findings
      updated_findings := updated_findings + reopened_findings
      duplicates := updated_findings
      errors := errors.length
      quarantined := 0
      status := "Completed"
      error_details := errors }
  let result : IngestionResult :=
    { source_tool := source_tool
      total_parsed := total_parsed
      new_findings := new_findings
      updated_findings := updated_findings
      reopened_findings := reopened_findings
      duplicates := updated_findings
      quarantined := 0
      error_count := errors.length
      error_details := errors }
  (result, logRow)

-- ---------------------------------------------------------------------------
-- parsers/tenable_was.rs (the parse_csv record loop)
-- ---------------------------------------------------------------------------

/-- tenable_was.rs `TenableWasRecord`: the CSV columns `convert_record`
reads (the remaining columns are dead weight for deserialization alignment
and never influence the result). -/
structure TenableWasRecord where
  plugin : String
  family : String
  severity : String
  ip_address : String
  input_name : String
  proof : String
  url : String
  dns_name : String
  plugin_output : String
  synopsis : String
  description : String
  steps_to_remediate : String
  cross_references : String
  cve : String
  repository : String
deriving Repr

/-- tenable_was.rs `map_severity` for Tenable WAS. -/
def tenable_map_severity (tool_severity : String) : SeverityLevel :=
  if tool_severity = "Critical" then SeverityLevel.Critical
  else if tool_severity = "High" then SeverityLevel.High
  else if tool_severity = "Medium" then SeverityLevel.Medium
  else if tool_severity = "Low" then SeverityLevel.Low
  else SeverityLevel.Info

/-- tenable_was.rs `non_empty`: `Some(trimmed)` if non-empty after trim. -/
def non_empty (s : String) : Option String :=
  let trimmed := s.trim
  if trimmed.isEmpty then none else some trimmed

/-- The regex `CWE:(\d+)` applied with `captures_iter`: every leftmost
non-overlapping occurrence of `CWE:` followed by a maximal non-empty digit
run, each formatted as `CWE-{digits}`. -/
def scanCwesFuel : Nat → List Char → List String
  | _, [] => []
  | 0, _ => []
  | fuel + 1, c :: rest =>
    if listStarts "CWE:".data (c :: rest) then
      let afterTag := rest.drop 3
      let digits := afterTag.takeWhile Char.isDigit
      if digits.isEmpty then scanCwesFuel fuel rest
      else ("CWE-" ++ String.mk digits) :: scanCwesFuel fuel (afterTag.drop digits.length)
    else scanCwesFuel fuel rest

/-- See `scanCwesFuel`; `l.length` recursion steps always suffice. -/
def scanCwes (l : List Char) : List String :=
  scanCwesFuel l.length l

/-- Rust `record.cve.split(['\n', ',']).map(trim).filter(non-empty)`. -/
def splitCves (cve : String) : List String :=
  ((cve.split (fun c => c = '\n' ∨ c = ',')).map String.trim).filter
    (fun s => !s.isEmpty)

/-- The normalized finding built by tenable_was.rs `convert_record`, in the
fields relevant to this development. The float CVSS scores, date parsing
and JSON metadata/evidence assembly of the source are not modelled; no
claim under check depends on them, and they influence neither the
`Ok`/`Err` partition nor any modelled field. -/
structure TenableFinding where
  source_finding_id : String
  title : String
  description : String
  normalized_severity : SeverityLevel
  original_severity : String
  cwe_ids : List String
  cve_ids : List String
  fingerprint : String
  target_url : String
  parameter : Option String
deriving Repr, DecidableEq

/-- tenable_was.rs `convert_record`: convert a single Tenable WAS record
into a normalized finding; the only error case is a missing Plugin ID. -/
def convert_record (record : TenableWasRecord) (index : Nat) :
    Except ParseError TenableFinding :=
  if record.plugin.isEmpty then
    Except.error ⟨index, "Plugin", "Missing Plugin ID"⟩
  else
    let normalized_severity := tenable_map_severity record.severity
    -- Extract CWE IDs from Cross References (e.g., "CWE:79" -> "CWE-79")
    let cwe_ids := scanCwes record.cross_references.data
    -- Extract CVE IDs from CVE column (newline or comma separated)
    let cve_ids := splitCves record.cve
    -- source_finding_id: plugin_id:url:input_name
    let source_finding_id := record.plugin ++ ":" ++ record.url ++ ":" ++ record.input_name
    -- Fingerprint: compute_dast("", plugin_id:url, "", input_name)
    let target_url_component := record.plugin ++ ":" ++ record.url
    let fp := compute_dast "" target_url_component "" record.input_name
    -- Title: Synopsis, fallback to "Plugin {plugin_id}"
    let title := if record.synopsis.isEmpty then "Plugin " ++ record.plugin else record.synopsis
    Except.ok
      { source_finding_id := source_finding_id
        title := title
        description := record.description
        normalized_severity := normalized_severity
        original_severity := record.severity
        cwe_ids := cwe_ids
        cve_ids := cve_ids
        fingerprint := fp
        target_url := record.url
        parameter := non_empty record.input_name }

/-- parsers/mod.rs `ParseResult`, for the Tenable parser. -/
structure TenableParseResult where
  findings : List TenableFinding
  errors : List ParseError
  source_tool : String
  source_tool_version : Option String
deriving Repr, DecidableEq

/-- The record loop of tenable_was.rs `parse_csv`: each row is either a CSV
deserialization error or a record; Info+General records are skipped
silently, others are converted. `i` is the enumeration index. -/
def tenableLoop (i : Nat) :
    List (Except String TenableWasRecord) → List TenableFinding × List ParseError
  | [] => ([], [])
  | row :: rest =>
    let p := tenableLoop (i + 1) rest
    match row with
    | Except.ok record =>
      -- Skip info/general records (scan metadata, sitemaps)
      if record.severity = "Info" ∧ record.family = "General" then (p.1, p.2)
      else
        match convert_record record i with
        | Except.ok finding => (finding :: p.1, p.2)
        | Except.error err => (p.1, err :: p.2)
    | Except.error e => (p.1, ⟨i, "csv_row", "CSV parse error: " ++ e⟩ :: p.2)

/-- tenable_was.rs `parse_csv`, over the CSV reader's per-row
deserialization results. -/
def tenable_parse_csv (rows : List (Except String TenableWasRecord)) :
    TenableParseResult :=
  { findings := (tenableLoop 0 rows).1
    errors := (tenableLoop 0 rows).2
    source_tool := "Tenable WAS"
    source_tool_version := none }

/-- Whether a row is an Info+General record (dropped by `parse_csv`). -/
def isInfoGeneral (row : Except String TenableWasRecord) : Bool :=
  match row with
  | Except.ok record => record.severity = "Info" ∧ record.family = "General"
  | Except.error _ => false

-- ---------------------------------------------------------------------------
-- Theorems
-- ---------------------------------------------------------------------------

open FindingStatus UserRole in
/-- C3: `is_valid_transition(from, to)` returns true exactly for the allowed
edges of the lifecycle state machine (New→Confirmed; Confirmed→InRemediation/
FalsePositive/FalsePositiveRequested/RiskAccepted/DeferredRemediation;
FalsePositiveRequested→FalsePositive/Confirmed; DeferredRemediation→
InRemediation; InRemediation→Mitigated; Mitigated→Verified; Verified→Closed;
RiskAccepted→Confirmed; Closed→New; any state→Invalidated) and false for
every other pair, in particular New→RiskAccepted. -/
theorem is_valid_transition_graph :
    (∀ f t : FindingStatus,
      is_valid_transition f t = true ↔
        ((f, t) ∈ ([(New, Confirmed),
          (Confirmed, InRemediation), (Confirmed, FalsePositive),
          (Confirmed, FalsePositiveRequested), (Confirmed, RiskAccepted),
          (Confirmed, DeferredRemediation),
          (FalsePositiveRequested, FalsePositive), (FalsePositiveRequested, Confirmed),
          (DeferredRemediation, InRemediation),
          (InRemediation, Mitigated), (Mitigated, Verified), (Verified, Closed),
          (RiskAccepted, Confirmed), (Closed, New)] :
            List (FindingStatus × FindingStatus)) ∨
        t = Invalidated)) ∧
    is_valid_transition New RiskAccepted = false := by
  decide

open FindingStatus UserRole in
/-- C4: `validate_transition` checks preconditions in the order
edge → RBAC → mandatory fields and fails with the matching error kind:
invalid edges yield `InvalidTransition`; an unauthorized role yields
`Forbidden` (e.g. Confirmed→Invalidated by an AppSecManager); a valid,
authorized transition to RiskAccepted without a non-empty justification or
without an expiry date, to DeferredRemediation without a committed date,
or to FalsePositive without a non-empty justification, yields `Validation`;
otherwise it returns `Ok`. -/
theorem validate_transition_order_and_kinds
    (f t : FindingStatus) (role : UserRole) (j : Option String) (cd ed : Option Nat) :
    (is_valid_transition f t = false →
      validate_transition f t role j cd ed =
        Except.error (AppError.InvalidTransition
          ("Cannot transition from " ++ statusDebug f ++ " to " ++ statusDebug t))) ∧
    (is_valid_transition f t = true → has_required_role role t = false →
      validate_transition f t role j cd ed =
        Except.error (AppError.Forbidden
          ("Role " ++ roleDebug role ++ " cannot transition to " ++ statusDebug t))) ∧
    (is_valid_transition f t = true → has_required_role role t = true →
      t = RiskAccepted → justificationMissing j = true →
      validate_transition f t role j cd ed =
        Except.error (AppError.Validation "Risk acceptance requires justification")) ∧
    (is_valid_transition f t = true → has_required_role role t = true →
      t = RiskAccepted → justificationMissing j = false → ed = none →
      validate_transition f t role j cd ed =
        Except.error (AppError.Validation "Risk acceptance requires an expiry date")) ∧
    (is_valid_transition f t = true → has_required_role role t = true →
      t = DeferredRemediation → cd = none →
      validate_transition f t role j cd ed =
        Except.error (AppError.Validation "Deferred remediation requires a committed date")) ∧
    (is_valid_transition f t = true → has_required_role role t = true →
      t = FalsePositive → justificationMissing j = true →
      validate_transition f t role j cd ed =
        Except.error (AppError.Validation "False positive requires justification")) ∧
    (is_valid_transition f t = true → has_required_role role t = true →
      (t = RiskAccepted → justificationMissing j = false ∧ ed ≠ none) →
      (t = DeferredRemediation → cd ≠ none) →
      (t = FalsePositive → justificationMissing j = false) →
      validate_transition f t role j cd ed = Except.ok ()) ∧
    (validate_transition Confirmed Invalidated AppSecManager j cd ed =
      Except.error (AppError.Forbidden "Role AppSecManager cannot transition to Invalidated")) := by
  refine ⟨?_, ?_, ?_, ?_, ?_, ?_, ?_, ?_⟩
  · intro h
    simp [validate_transition, h]
    rfl
  · intro h hr
    simp [validate_transition, h, hr]
    rfl
  · intro h hr ht hj
    subst ht
    simp [validate_transition, h, hr, hj]
    rfl
  · intro h hr ht hj hed
    subst ht hed
    simp [validate_transition, h, hr, hj]
    rfl
  · intro h hr ht hcd
    subst ht hcd
    simp [validate_transition, h, hr]
    rfl
  · intro h hr ht hj
    subst ht
    simp [validate_transition, h, hr, hj]
    rfl
  · intro h hr hra hdr hfp
    simp only [validate_transition, h, hr, Bool.not_true, Bool.false_eq_true, if_false]
    rcases Decidable.em (t = RiskAccepted) with h1 | h1
    · obtain ⟨hj, hed⟩ := hra h1
      subst h1
      simp [hj, hed, Option.isSome_iff_ne_none]
      rfl
    · rcases Decidable.em (t = DeferredRemediation) with h2 | h2
      · have hcd := hdr h2
        subst h2
        simp [hcd]
        rfl
      · rcases Decidable.em (t = FalsePositive) with h3 | h3
        · have hj := hfp h3
          subst h3
          simp [hj, h1]
          rfl
        · simp [h1, h2, h3]
          rfl
  · simp [validate_transition, has_required_role, required_roles, statusDebug, roleDebug,
      is_valid_transition]
    rfl

/-- Concrete witness for C4: Confirmed→InRemediation by an AppSecAnalyst with
no extra fields validates Ok. -/
theorem validate_transition_order_and_kinds_witness :
    validate_transition FindingStatus.Confirmed FindingStatus.InRemediation
      UserRole.AppSecAnalyst none none none = Except.ok () := by
  have h := validate_transition_order_and_kinds FindingStatus.Confirmed
    FindingStatus.InRemediation UserRole.AppSecAnalyst none none none
  exact h.2.2.2.2.2.2.1 (by decide) (by decide) (by decide) (by decide) (by decide)

/-- `has_common_id` decides existence of a shared element. -/
theorem has_common_id_iff (x y : List String) :
    has_common_id x y = true ↔ ∃ s, s ∈ x ∧ s ∈ y := by
  simp [has_common_id, List.any_eq_true]

/-- `has_common_id` is symmetric. -/
theorem has_common_id_comm (x y : List String) :
    has_common_id x y = has_common_id y x := by
  rw [Bool.eq_iff_iff, has_common_id_iff, has_common_id_iff]
  exact ⟨fun ⟨s, h1, h2⟩ => ⟨s, h2, h1⟩, fun ⟨s, h1, h2⟩ => ⟨s, h2, h1⟩⟩

/-- C6: for SCA candidate pairs, `check_cross_dedup` returns a match iff the
tools differ, both findings carry the same application id, and they share at
least one CVE; the match has High confidence exactly when both package names
are present and equal, and Medium confidence otherwise. -/
theorem check_cross_dedup_sca_characterization
    (a b : CrossDedupCandidate)
    (ha : a.category = FindingCategory.Sca) (hb : b.category = FindingCategory.Sca) :
    ((check_cross_dedup a b).isSome ↔
      (a.source_tool ≠ b.source_tool ∧
       (∃ app, a.application_id = some app ∧ b.application_id = some app) ∧
       ∃ cve, cve ∈ a.cve_ids ∧ cve ∈ b.cve_ids)) ∧
    (∀ m, check_cross_dedup a b = some m →
      ((m.confidence = ConfidenceLevel.High ↔
          ∃ p, a.package_name = some p ∧ b.package_name = some p) ∧
       (m.confidence = ConfidenceLevel.High ∨ m.confidence = ConfidenceLevel.Medium))) := by
  by_cases hst : a.source_tool = b.source_tool
  · have hred : check_cross_dedup a b = none := by
      simp [check_cross_dedup, ha, hb, hst]
    rw [hred]
    exact ⟨by simp [hst], fun m hm => by simp at hm⟩
  · cases appA : a.application_id with
    | none =>
      have hred : check_cross_dedup a b = none := by
        simp [check_cross_dedup, ha, hb, hst, appA]
      rw [hred]
      refine ⟨?_, fun m hm => by simp at hm⟩
      simp only [Option.isSome_none, Bool.false_eq_true, false_iff]
      rintro ⟨-, ⟨app, h1, -⟩, -⟩
      exact Option.noConfusion h1
    | some x =>
      cases appB : b.application_id with
      | none =>
        have hred : check_cross_dedup a b = none := by
          simp [check_cross_dedup, ha, hb, hst, appA, appB]
        rw [hred]
        refine ⟨?_, fun m hm => by simp at hm⟩
        simp only [Option.isSome_none, Bool.false_eq_true, false_iff]
        rintro ⟨-, ⟨app, -, h2⟩, -⟩
        exact Option.noConfusion h2
      | some y =>
        by_cases hxy : x = y
        · subst hxy
          have hred : check_cross_dedup a b = check_sca a b := by
            simp [check_cross_dedup, ha, hb, hst, appA, appB]
          rw [hred]
          by_cases hcve : has_common_id a.cve_ids b.cve_ids = true
          · have hex := (has_common_id_iff a.cve_ids b.cve_ids).mp hcve
            refine ⟨?_, ?_⟩
            · simp only [check_sca, hcve, Bool.not_true, Bool.false_eq_true, if_false]
              simp only [Option.isSome_some, true_iff]
              exact ⟨hst, ⟨x, rfl, rfl⟩, hex⟩
            · intro m hm
              simp only [check_sca, hcve, Bool.not_true, Bool.false_eq_true, if_false] at hm
              cases pA : a.package_name with
              | none =>
                rw [pA] at hm
                simp only [Option.some.injEq] at hm
                subst hm
                refine ⟨⟨fun hcontr => absurd hcontr (by simp), ?_⟩, Or.inr (by simp)⟩
                rintro ⟨p, hpa, -⟩
                exact Option.noConfusion hpa
              | some pa =>
                cases pB : b.package_name with
                | none =>
                  rw [pA, pB] at hm
                  simp only [Option.some.injEq] at hm
                  subst hm
                  refine ⟨⟨fun hcontr => absurd hcontr (by simp), ?_⟩, Or.inr (by simp)⟩
                  rintro ⟨p, -, hpb⟩
                  exact Option.noConfusion hpb
                | some pb =>
                  by_cases hp : pa = pb
                  · subst hp
                    rw [pA, pB] at hm
                    simp only [decide_eq_true_eq, if_pos rfl, Option.some.injEq] at hm
                    subst hm
                    exact ⟨⟨fun _ => ⟨pa, rfl, rfl⟩, fun _ => by simp⟩, Or.inl (by simp)⟩
                  · rw [pA, pB] at hm
                    rw [if_neg (by simpa using hp)] at hm
                    simp only [Option.some.injEq] at hm
                    subst hm
                    refine ⟨⟨fun hcontr => absurd hcontr (by simp), ?_⟩, Or.inr (by simp)⟩
                    rintro ⟨p, hpa, hpb⟩
                    obtain rfl := Option.some.inj hpa
                    obtain rfl := Option.some.inj hpb
                    exact absurd rfl hp
          · have hnex : ¬∃ s, s ∈ a.cve_ids ∧ s ∈ b.cve_ids := by
              rw [← has_common_id_iff]
              simp [hcve]
            refine ⟨?_, ?_⟩
            · simp only [check_sca, hcve]
              simp only [Bool.not_false, if_true, Option.isSome_none,
                Bool.false_eq_true, false_iff]
              rintro ⟨-, -, hex⟩
              exact hnex hex
            · intro m hm
              simp only [check_sca, hcve] at hm
              simp at hm
        · have hred : check_cross_dedup a b = none := by
            simp [check_cross_dedup, ha, hb, hst, appA, appB, hxy]
          rw [hred]
          refine ⟨?_, fun m hm => by simp at hm⟩
          simp only [Option.isSome_none, Bool.false_eq_true, false_iff]
          rintro ⟨-, ⟨app, h1, h2⟩, -⟩
          obtain rfl := Option.some.inj h1
          obtain rfl := Option.some.inj h2
          exact hxy rfl

/-- Concrete witness for C6: two SCA findings from different tools on the
same application sharing CVE-2021-44228 and package log4j-core produce a
High-confidence match. -/
theorem check_cross_dedup_sca_characterization_witness :
    (check_cross_dedup
      ⟨1, FindingCategory.Sca, some 7, "JFrog Xray", ["CVE-2021-44228"], [],
        some "log4j-core", none, none, none, none, none⟩
      ⟨2, FindingCategory.Sca, some 7, "Snyk", ["CVE-2021-44228"], [],
        some "log4j-core", none, none, none, none, none⟩).isSome = true := by
  have h := check_cross_dedup_sca_characterization
    ⟨1, FindingCategory.Sca, some 7, "JFrog Xray", ["CVE-2021-44228"], [],
      some "log4j-core", none, none, none, none, none⟩
    ⟨2, FindingCategory.Sca, some 7, "Snyk", ["CVE-2021-44228"], [],
      some "log4j-core", none, none, none, none, none⟩
    rfl rfl
  rw [h.1]
  refine ⟨by decide, ⟨7, rfl, rfl⟩, "CVE-2021-44228", by decide, by decide⟩

/-- Swap the two finding-id roles in a cross-dedup match. -/
def swapMatch (m : CrossDedupMatch) : CrossDedupMatch :=
  ⟨m.finding_b_id, m.finding_a_id, m.confidence, m.match_reason⟩

/-- `check_sca` is symmetric up to swapping the finding-id roles. -/
theorem check_sca_symm (a b : CrossDedupCandidate) :
    check_sca b a = (check_sca a b).map swapMatch := by
  unfold check_sca
  rw [has_common_id_comm b.cve_ids a.cve_ids]
  by_cases hc : has_common_id a.cve_ids b.cve_ids = true
  · simp only [hc, Bool.not_true, Bool.false_eq_true, if_false]
    cases pA : a.package_name with
    | none => simp [swapMatch]
    | some pa =>
      cases pB : b.package_name with
      | none => simp [swapMatch]
      | some pb =>
        by_cases hp : pa = pb
        · subst hp
          simp [swapMatch]
        · rw [if_neg (by simpa using Ne.symm hp), if_neg (by simpa using hp)]
          simp [swapMatch]
  · simp [hc]

/-- `check_sast` is symmetric up to swapping the finding-id roles. -/
theorem check_sast_symm (a b : CrossDedupCandidate) :
    check_sast b a = (check_sast a b).map swapMatch := by
  unfold check_sast
  rw [has_common_id_comm b.cwe_ids a.cwe_ids]
  by_cases hc : has_common_id a.cwe_ids b.cwe_ids = true
  · simp only [hc, Bool.not_true, Bool.false_eq_true, if_false]
    cases hba : a.branch with
    | none => cases hbb : b.branch <;> simp
    | some ba =>
      cases hbb : b.branch with
      | none => simp
      | some bb =>
        by_cases hbeq : ba = bb
        · subst hbeq
          cases hfa : a.file_path with
          | none => cases hfb : b.file_path <;> simp
          | some fa =>
            cases hfb : b.file_path with
            | none => simp
            | some fb =>
              by_cases hfeq : fa = fb
              · subst hfeq
                cases hla : a.line_number with
                | none => cases hlb : b.line_number <;> simp [swapMatch]
                | some la =>
                  cases hlb : b.line_number with
                  | none => simp [swapMatch]
                  | some lb =>
                    have habs : |lb - la| = |la - lb| := abs_sub_comm lb la
                    by_cases hnear : |la - lb| ≤ LINE_PROXIMITY_THRESHOLD
                    · simp [habs, hnear, swapMatch]
                    · simp [habs, hnear, swapMatch]
              · have : ¬(fb = fa) := fun h => hfeq h.symm
                simp [hfeq, this]
        · have : ¬(bb = ba) := fun h => hbeq h.symm
          simp [hbeq, this]
  · simp [hc]

/-- `check_dast` is symmetric up to swapping the finding-id roles. -/
theorem check_dast_symm (a b : CrossDedupCandidate) :
    check_dast b a = (check_dast a b).map swapMatch := by
  unfold check_dast
  rw [has_common_id_comm b.cwe_ids a.cwe_ids]
  by_cases hc : has_common_id a.cwe_ids b.cwe_ids = true
  · simp only [hc, Bool.not_true, Bool.false_eq_true, if_false]
    cases hua : a.target_url with
    | none => cases hub : b.target_url <;> simp
    | some ua =>
      cases hub : b.target_url with
      | none => simp
      | some ub =>
        by_cases hueq : ua = ub
        · subst hueq
          cases pA : a.parameter with
          | none => cases pB : b.parameter <;> simp [swapMatch]
          | some pa =>
            cases pB : b.parameter with
            | none => simp [swapMatch]
            | some pb =>
              by_cases hp : pa = pb
              · subst hp
                simp [swapMatch]
              · rw [if_neg (by simpa using Ne.symm hp), if_neg (by simpa using hp)]
                simp [swapMatch]
        · have h2 : ¬(ub = ua) := fun h => hueq h.symm
          simp [hueq, h2]
  · simp [hc]

/-- C10: `check_cross_dedup` is symmetric in its arguments: swapping the
candidates yields a match exactly when the original call does, with the
same confidence and match reason, and with the finding-id roles swapped. -/
theorem check_cross_dedup_symm (a b : CrossDedupCandidate) :
    check_cross_dedup b a = (check_cross_dedup a b).map swapMatch := by
  unfold check_cross_dedup
  by_cases hcat : a.category = b.category
  · rw [if_neg (not_not_intro hcat.symm), if_neg (not_not_intro hcat)]
    by_cases hst : a.source_tool = b.source_tool
    · rw [if_pos hst.symm, if_pos hst]
      simp
    · have hst2 : ¬(b.source_tool = a.source_tool) := fun h => hst h.symm
      rw [if_neg hst2, if_neg hst]
      cases appA : a.application_id with
      | none => cases appB : b.application_id <;> simp
      | some x =>
        cases appB : b.application_id with
        | none => simp
        | some y =>
          by_cases hxy : x = y
          · subst hxy
            simp only [eq_self_iff_true, if_true]
            rw [← hcat]
            cases hac : a.category with
            | Sca => exact check_sca_symm a b
            | Sast => exact check_sast_symm a b
            | Dast => exact check_dast_symm a b
          · have hyx : ¬(y = x) := fun h => hxy h.symm
            simp [hxy, hyx]
  · have hcat2 : ¬(b.category = a.category) := fun h => hcat h.symm
    rw [if_pos (by simpa using hcat2), if_pos (by simpa using hcat)]
    simp

set_option maxRecDepth 100000 in
/-- Sanity check of the SHA-256 model against the FIPS 180-4 test vector
for the message "abc". -/
theorem fingerprintHash_abc :
    fingerprintHash "abc"
      = "ba7816bf8f01cfea414140de5dae2223b00361a396177a9cb410ff61f20015ad" := by
  rfl

set_option maxRecDepth 100000 in
/-- Sanity check of the SHA-256 model against the test vector for the empty
message. -/
theorem fingerprintHash_empty :
    fingerprintHash ""
      = "e3b0c44298fc1c149afbf4c8996fb92427ae41e4649b934ca495991b7852b855" := by
  rfl

/-- Every byte of a word decomposition is below 256. -/
theorem wordBytes_lt (w : Nat) : ∀ x ∈ Sha256.wordBytes w, x < 256 := by
  intro x hx
  simp only [Sha256.wordBytes, List.mem_cons, List.not_mem_nil, or_false] at hx
  rcases hx with rfl | rfl | rfl | rfl <;> exact Nat.mod_lt _ (by norm_num)

/-- A SHA-256 digest has 32 bytes. -/
theorem sha256_length (msg : List Nat) : (Sha256.sha256 msg).length = 32 := by
  simp [Sha256.sha256, Sha256.wordBytes]

/-- Every byte of a SHA-256 digest is below 256. -/
theorem sha256_lt (msg : List Nat) : ∀ x ∈ Sha256.sha256 msg, x < 256 := by
  intro x hx
  simp only [Sha256.sha256, List.mem_append] at hx
  rcases hx with ((((((h | h) | h) | h) | h) | h) | h) | h <;> exact wordBytes_lt _ _ h

/-- Hex digits of nibbles are lowercase hex characters. -/
theorem hexDigit_mem (n : Nat) (h : n < 16) :
    Sha256.hexDigit n ∈ ("0123456789abcdef" : String).data := by
  interval_cases n <;> decide

/-- The flattened hex expansion has two characters per byte. -/
theorem hexExpand_length (l : List Nat) :
    ((l.map (fun b => [Sha256.hexDigit (b / 16), Sha256.hexDigit (b % 16)])).flatten).length
      = 2 * l.length := by
  induction l with
  | nil => rfl
  | cons b t ih =>
    simp only [List.map_cons, List.flatten_cons, List.length_append, List.length_cons,
      List.length_nil, List.length_map, ih]
    omega

/-- `hexEncode` yields two characters per byte. -/
theorem hexEncode_length (bytes : List Nat) :
    (Sha256.hexEncode bytes).length = 2 * bytes.length := by
  show ((bytes.map _).flatten).length = 2 * bytes.length
  exact hexExpand_length bytes

/-- Every character of `hexEncode` of bytes below 256 is a lowercase hex digit. -/
theorem hexEncode_mem (bytes : List Nat) (hb : ∀ b ∈ bytes, b < 256) :
    ∀ c ∈ (Sha256.hexEncode bytes).data, c ∈ ("0123456789abcdef" : String).data := by
  intro c hc
  have hc2 : c ∈ (bytes.map
      (fun b => [Sha256.hexDigit (b / 16), Sha256.hexDigit (b % 16)])).flatten := hc
  rw [List.mem_flatten] at hc2
  obtain ⟨l, hl, hcl⟩ := hc2
  rw [List.mem_map] at hl
  obtain ⟨b, hbmem, rfl⟩ := hl
  have hblt := hb b hbmem
  have h1 : b / 16 < 16 := Nat.div_lt_of_lt_mul (by omega)
  have h2 : b % 16 < 16 := Nat.mod_lt _ (by norm_num)
  simp only [List.mem_cons, List.not_mem_nil, or_false] at hcl
  rcases hcl with rfl | rfl
  · exact hexDigit_mem _ h1
  · exact hexDigit_mem _ h2

/-- The SAST and SCA preimage prefixes differ at the second character. -/
theorem sast_ne_sca_preimage (s1 s2 s3 s4 : String) :
    sastPreimage s1 s2 s3 s4 ≠ scaPreimage s1 s2 s3 s4 := by
  intro h
  have h2 := congrArg String.data h
  simp only [sastPreimage, scaPreimage, String.data_append] at h2
  simp only [List.cons_append, List.nil_append, List.append_assoc, List.cons.injEq] at h2
  exact absurd h2.2.1 (by decide)

/-- The SAST and DAST preimage prefixes differ at the first character. -/
theorem sast_ne_dast_preimage (s1 s2 s3 s4 : String) :
    sastPreimage s1 s2 s3 s4 ≠ dastPreimage s1 s2 s3 s4 := by
  intro h
  have h2 := congrArg String.data h
  simp only [sastPreimage, dastPreimage, String.data_append] at h2
  simp only [List.cons_append, List.nil_append, List.append_assoc, List.cons.injEq] at h2
  exact absurd h2.1 (by decide)

/-- The SCA and DAST preimage prefixes differ at the first character. -/
theorem sca_ne_dast_preimage (s1 s2 s3 s4 : String) :
    scaPreimage s1 s2 s3 s4 ≠ dastPreimage s1 s2 s3 s4 := by
  intro h
  have h2 := congrArg String.data h
  simp only [scaPreimage, dastPreimage, String.data_append] at h2
  simp only [List.cons_append, List.nil_append, List.append_assoc, List.cons.injEq] at h2
  exact absurd h2.1 (by decide)

set_option maxRecDepth 100000 in
/-- C5: each fingerprint function returns the 64-character lowercase-hex
SHA-256 digest of its category-prefixed colon-delimited preimage (empty
fields joining as empty strings), and for identical payload fields the
preimages of different categories are distinct strings; at a concrete
shared payload the SAST and DAST fingerprints indeed differ. -/
theorem fingerprint_hex_sha256 (s1 s2 s3 s4 : String) :
    (compute_sast s1 s2 s3 s4
        = Sha256.hexEncode (Sha256.sha256 (strBytes (sastPreimage s1 s2 s3 s4))) ∧
      compute_sca s1 s2 s3 s4
        = Sha256.hexEncode (Sha256.sha256 (strBytes (scaPreimage s1 s2 s3 s4))) ∧
      compute_dast s1 s2 s3 s4
        = Sha256.hexEncode (Sha256.sha256 (strBytes (dastPreimage s1 s2 s3 s4)))) ∧
    ((compute_sast s1 s2 s3 s4).length = 64 ∧
      (compute_sca s1 s2 s3 s4).length = 64 ∧
      (compute_dast s1 s2 s3 s4).length = 64) ∧
    ((∀ c ∈ (compute_sast s1 s2 s3 s4).data, c ∈ ("0123456789abcdef" : String).data) ∧
      (∀ c ∈ (compute_sca s1 s2 s3 s4).data, c ∈ ("0123456789abcdef" : String).data) ∧
      (∀ c ∈ (compute_dast s1 s2 s3 s4).data, c ∈ ("0123456789abcdef" : String).data)) ∧
    (sastPreimage s1 s2 s3 s4 ≠ scaPreimage s1 s2 s3 s4 ∧
      sastPreimage s1 s2 s3 s4 ≠ dastPreimage s1 s2 s3 s4 ∧
      scaPreimage s1 s2 s3 s4 ≠ dastPreimage s1 s2 s3 s4) ∧
    compute_sast "APP1" "target" "rule" "param"
      ≠ compute_dast "APP1" "target" "rule" "param" := by
  have hlen : ∀ s : String, (fingerprintHash s).length = 64 := by
    intro s
    rw [show fingerprintHash s = Sha256.hexEncode (Sha256.sha256 (strBytes s)) from rfl,
      hexEncode_length, sha256_length]
  have hmem : ∀ s : String, ∀ c ∈ (fingerprintHash s).data,
      c ∈ ("0123456789abcdef" : String).data := by
    intro s
    exact hexEncode_mem _ (sha256_lt _)
  refine ⟨⟨rfl, rfl, rfl⟩, ⟨hlen _, hlen _, hlen _⟩, ⟨hmem _, hmem _, hmem _⟩,
    ⟨sast_ne_sca_preimage s1 s2 s3 s4, sast_ne_dast_preimage s1 s2 s3 s4,
      sca_ne_dast_preimage s1 s2 s3 s4⟩, ?_⟩
  decide

/-- Concrete witness for C5: a SAST fingerprint is 64 characters long and the
SAST/SCA preimages differ for a shared payload. -/
theorem fingerprint_hex_sha256_witness :
    (compute_sast "APP1" "file.rs" "rule1" "main").length = 64 ∧
    sastPreimage "APP1" "t" "r" "p" ≠ scaPreimage "APP1" "t" "r" "p" :=
  ⟨(fingerprint_hex_sha256 "APP1" "file.rs" "rule1" "main").2.1.1,
   (fingerprint_hex_sha256 "APP1" "t" "r" "p").2.2.2.1.1⟩

/-- `score_to_priority` realizes the priority bands P1 [80,100], P2 [60,80),
P3 [40,60), P4 [20,40), P5 [0,20) on scores within [0,100]. -/
theorem score_to_priority_iff (s : ℚ) (h0 : 0 ≤ s) (h100 : s ≤ 100) :
    (score_to_priority s = PriorityLevel.P1 ↔ 80 ≤ s ∧ s ≤ 100) ∧
    (score_to_priority s = PriorityLevel.P2 ↔ 60 ≤ s ∧ s < 80) ∧
    (score_to_priority s = PriorityLevel.P3 ↔ 40 ≤ s ∧ s < 60) ∧
    (score_to_priority s = PriorityLevel.P4 ↔ 20 ≤ s ∧ s < 40) ∧
    (score_to_priority s = PriorityLevel.P5 ↔ 0 ≤ s ∧ s < 20) := by
  unfold score_to_priority
  split_ifs with h1 h2 h3 h4 <;>
    refine ⟨?_, ?_, ?_, ?_, ?_⟩ <;>
    first
      | exact iff_of_true rfl (by constructor <;> linarith)
      | exact iff_of_false (by decide) (by rintro ⟨ha, hb⟩; linarith)

/-- The clamped composite is non-negative. -/
theorem clamp100_nonneg (x : ℚ) : 0 ≤ clamp100 x := le_max_left 0 _

/-- The clamped composite is at most 100. -/
theorem clamp100_le (x : ℚ) : clamp100 x ≤ 100 :=
  max_le (by norm_num) (min_le_left _ _)

/-- C7: `compute` returns the weighted sum clamped to [0,100] and rounded to
one decimal as the composite score, assigns priorities by the bands
P1 [80,100], P2 [60,80), P3 [40,60), P4 [20,40), P5 [0,20) over the clamped
score, and on the PRD example (High severity, VeryHigh criticality, SAST
taint confidence High, SLA ratio 0.3, standalone correlation, default
weights) yields composite 69.0 with priority P2. -/
theorem compute_composite_and_priority (factors : RiskFactors) (weights : RiskWeights) :
    ((compute factors weights).composite_score
        = roundTo1 (clamp100 (weightedSum factors weights))) ∧
    ((compute factors weights).priority = PriorityLevel.P1 ↔
        80 ≤ clamp100 (weightedSum factors weights) ∧
        clamp100 (weightedSum factors weights) ≤ 100) ∧
    ((compute factors weights).priority = PriorityLevel.P2 ↔
        60 ≤ clamp100 (weightedSum factors weights) ∧
        clamp100 (weightedSum factors weights) < 80) ∧
    ((compute factors weights).priority = PriorityLevel.P3 ↔
        40 ≤ clamp100 (weightedSum factors weights) ∧
        clamp100 (weightedSum factors weights) < 60) ∧
    ((compute factors weights).priority = PriorityLevel.P4 ↔
        20 ≤ clamp100 (weightedSum factors weights) ∧
        clamp100 (weightedSum factors weights) < 40) ∧
    ((compute factors weights).priority = PriorityLevel.P5 ↔
        0 ≤ clamp100 (weightedSum factors weights) ∧
        clamp100 (weightedSum factors weights) < 20) ∧
    ((compute ⟨SeverityLevel.High, some AssetCriticality.VeryHigh,
        ExploitabilityInput.SastConfidence SastTaintConfidence.High,
        ⟨some (3/10)⟩, ⟨1, 1⟩⟩ defaultRiskWeights).composite_score = 69 ∧
      (compute ⟨SeverityLevel.High, some AssetCriticality.VeryHigh,
        ExploitabilityInput.SastConfidence SastTaintConfidence.High,
        ⟨some (3/10)⟩, ⟨1, 1⟩⟩ defaultRiskWeights).priority = PriorityLevel.P2) := by
  have hiffs := score_to_priority_iff (clamp100 (weightedSum factors weights))
    (clamp100_nonneg _) (clamp100_le _)
  have hpr : (compute factors weights).priority
      = score_to_priority (clamp100 (weightedSum factors weights)) := rfl
  refine ⟨rfl, ?_, ?_, ?_, ?_, ?_, ?_, ?_⟩
  · rw [hpr]; exact hiffs.1
  · rw [hpr]; exact hiffs.2.1
  · rw [hpr]; exact hiffs.2.2.1
  · rw [hpr]; exact hiffs.2.2.2.1
  · rw [hpr]; exact hiffs.2.2.2.2
  · norm_num [compute, clamp100, roundTo1, severity_to_score, criticality_to_score,
      exploitability_to_score, finding_age_to_score, correlation_to_score,
      defaultRiskWeights]
  · norm_num [compute, clamp100, score_to_priority, severity_to_score,
      criticality_to_score, exploitability_to_score, finding_age_to_score,
      correlation_to_score, defaultRiskWeights]

/-- C8: when the most recently created finding with the fingerprint exists
and its status is not Closed, `check_and_apply` returns `Updated` with that
finding's id, appends no history row, and rewrites the findings table so
that only the matched id's `last_seen` and `updated_at` become `now`:
every row's id, fingerprint, status, created_at and remaining payload are
unchanged, and rows with a different id are untouched entirely. -/
theorem check_and_apply_updated_frame {α : Type} (db : Db α) (fp : String)
    (acted_by now : Nat) (f : DbFinding α)
    (hf : latestByFingerprint db.findings fp = some f)
    (hs : f.status ≠ FindingStatus.Closed) :
    (check_and_apply db fp acted_by now).1 = DedupResult.Updated f.id ∧
    (check_and_apply db fp acted_by now).2.history = db.history ∧
    (check_and_apply db fp acted_by now).2.findings
      = db.findings.map (fun g =>
          if g.id = f.id then { g with last_seen := now, updated_at := now } else g) ∧
    (check_and_apply db fp acted_by now).2.findings.map DbFinding.status
      = db.findings.map DbFinding.status ∧
    (check_and_apply db fp acted_by now).2.findings.map DbFinding.id
      = db.findings.map DbFinding.id ∧
    (check_and_apply db fp acted_by now).2.findings.map DbFinding.fingerprint
      = db.findings.map DbFinding.fingerprint ∧
    (check_and_apply db fp acted_by now).2.findings.map DbFinding.created_at
      = db.findings.map DbFinding.created_at ∧
    (check_and_apply db fp acted_by now).2.findings.map DbFinding.payload
      = db.findings.map DbFinding.payload ∧
    ∀ g ∈ db.findings, g.id ≠ f.id → g ∈ (check_and_apply db fp acted_by now).2.findings := by
  have hred : check_and_apply db fp acted_by now
      = (DedupResult.Updated f.id, touch_last_seen db f.id now) := by
    unfold check_and_apply
    rw [hf]
    exact if_neg hs
  rw [hred]
  have hfind : (touch_last_seen db f.id now).findings
      = db.findings.map (fun g =>
          if g.id = f.id then { g with last_seen := now, updated_at := now } else g) := rfl
  refine ⟨rfl, rfl, hfind, ?_, ?_, ?_, ?_, ?_, ?_⟩
  · rw [hfind, List.map_map]
    refine List.map_congr_left (fun g _ => ?_)
    by_cases h : g.id = f.id <;> simp [h]
  · rw [hfind, List.map_map]
    refine List.map_congr_left (fun g _ => ?_)
    by_cases h : g.id = f.id <;> simp [h]
  · rw [hfind, List.map_map]
    refine List.map_congr_left (fun g _ => ?_)
    by_cases h : g.id = f.id <;> simp [h]
  · rw [hfind, List.map_map]
    refine List.map_congr_left (fun g _ => ?_)
    by_cases h : g.id = f.id <;> simp [h]
  · rw [hfind, List.map_map]
    refine List.map_congr_left (fun g _ => ?_)
    by_cases h : g.id = f.id <;> simp [h]
  · intro g hg hne
    rw [hfind]
    have : (fun g : DbFinding α =>
        if g.id = f.id then { g with last_seen := now, updated_at := now } else g) g = g := by
      simp [hne]
    rw [← this]
    exact List.mem_map_of_mem _ hg

/-- Concrete witness for C8: a single open finding matched by fingerprint is
reported as Updated with its id. -/
theorem check_and_apply_updated_frame_witness :
    (check_and_apply
      (⟨[⟨1, "fp1", FindingStatus.New, 0, 0, 0, ()⟩], []⟩ : Db Unit) "fp1" 9 5).1
      = DedupResult.Updated 1 := by
  have h := check_and_apply_updated_frame
    (α := Unit) ⟨[⟨1, "fp1", FindingStatus.New, 0, 0, 0, ()⟩], []⟩ "fp1" 9 5
    ⟨1, "fp1", FindingStatus.New, 0, 0, 0, ()⟩ rfl (by decide)
  exact h.1

/-- The per-finding loop partitions its outcomes: created + deduplicated +
reopened + failed = number of outcomes. -/
theorem processLoop_total (outcomes : List (Except String ProcessOutcome)) :
    ∀ i, (processLoop i outcomes).1 + (processLoop i outcomes).2.1
      + (processLoop i outcomes).2.2.1 + (processLoop i outcomes).2.2.2.length
      = outcomes.length := by
  induction outcomes with
  | nil => intro i; rfl
  | cons o rest ih =>
    intro i
    cases o with
    | ok po =>
      cases po <;> simp only [processLoop, List.length_cons] <;>
        rw [← ih (i + 1)] <;> omega
    | error msg =>
      simp only [processLoop, List.length_cons, List.length_cons]
      rw [← ih (i + 1)]
      omega

/-- Every error recorded by the per-finding loop carries stage "ingest". -/
theorem processLoop_stage (outcomes : List (Except String ProcessOutcome)) :
    ∀ i, ∀ e ∈ (processLoop i outcomes).2.2.2, e.stage = "ingest" := by
  induction outcomes with
  | nil => intro i e he; simp [processLoop] at he
  | cons o rest ih =>
    intro i e he
    cases o with
    | ok po =>
      cases po <;> exact ih (i + 1) e he
    | error msg =>
      simp only [processLoop, List.mem_cons] at he
      rcases he with rfl | he
      · rfl
      · exact ih (i + 1) e he

/-- C1 (amended): for every completed ingestion run, `total_parsed` equals
new + updated + reopened + (number of ingest-stage errors), and the
`ingestion_logs` row counts agree with the returned result, except that the
row's `updated_findings` column stores dedup updates plus reopens, i.e.
`result.updated_findings + result.reopened_findings`. -/
theorem ingest_file_counts (source_tool : String) (parseErrors : List ParseError)
    (outcomes : List (Except String ProcessOutcome)) :
    ((ingest_file source_tool parseErrors outcomes).1.total_parsed
        = (ingest_file source_tool parseErrors outcomes).1.new_findings
          + (ingest_file source_tool parseErrors outcomes).1.updated_findings
          + (ingest_file source_tool parseErrors outcomes).1.reopened_findings
          + ((ingest_file source_tool parseErrors outcomes).1.error_details.filter
              (fun e => e.stage = "ingest")).length) ∧
    ((ingest_file source_tool parseErrors outcomes).2.total_records
        = (ingest_file source_tool parseErrors outcomes).1.total_parsed) ∧
    ((ingest_file source_tool parseErrors outcomes).2.new_findings
        = (ingest_file source_tool parseErrors outcomes).1.new_findings) ∧
    ((ingest_file source_tool parseErrors outcomes).2.updated_findings
        = (ingest_file source_tool parseErrors outcomes).1.updated_findings
          + (ingest_file source_tool parseErrors outcomes).1.reopened_findings) ∧
    ((ingest_file source_tool parseErrors outcomes).2.duplicates
        = (ingest_file source_tool parseErrors outcomes).1.duplicates) ∧
    ((ingest_file source_tool parseErrors outcomes).2.errors
        = (ingest_file source_tool parseErrors outcomes).1.error_count) ∧
    ((ingest_file source_tool parseErrors outcomes).2.error_details
        = (ingest_file source_tool parseErrors outcomes).1.error_details) ∧
    (ingest_file source_tool parseErrors outcomes).2.status = "Completed" := by
  refine ⟨?_, rfl, rfl, rfl, rfl, rfl, rfl, rfl⟩
  have hfilter :
      (((parseErrors.map (fun e =>
          (⟨e.record_index, "parse", e.field ++ ": " ++ e.message⟩ : IngestionError)))
        ++ (processLoop 0 outcomes).2.2.2).filter (fun e => e.stage = "ingest")).length
      = (processLoop 0 outcomes).2.2.2.length := by
    rw [List.filter_append]
    have h1 : (parseErrors.map (fun e =>
        (⟨e.record_index, "parse", e.field ++ ": " ++ e.message⟩ : IngestionError))).filter
          (fun e => e.stage = "ingest") = [] := by
      rw [List.filter_eq_nil_iff]
      intro e he
      rw [List.mem_map] at he
      obtain ⟨x, -, rfl⟩ := he
      simp
    have h2 : ((processLoop 0 outcomes).2.2.2).filter (fun e => e.stage = "ingest")
        = (processLoop 0 outcomes).2.2.2 := by
      rw [List.filter_eq_self]
      intro e he
      simp [processLoop_stage outcomes 0 e he]
    rw [h1, h2, List.nil_append]
  show outcomes.length
      = (processLoop 0 outcomes).1 + (processLoop 0 outcomes).2.1
        + (processLoop 0 outcomes).2.2.1
        + (((parseErrors.map (fun e =>
            (⟨e.record_index, "parse", e.field ++ ": " ++ e.message⟩ : IngestionError)))
          ++ (processLoop 0 outcomes).2.2.2).filter (fun e => e.stage = "ingest")).length
  rw [hfilter]
  exact (processLoop_total outcomes 0).symm

/-- Concrete witness for C1's amended statement, at one reopened outcome. -/
theorem ingest_file_counts_witness :
    (ingest_file "SonarQube" [] [Except.ok ProcessOutcome.Reopened]).2.updated_findings
      = (ingest_file "SonarQube" [] [Except.ok ProcessOutcome.Reopened]).1.updated_findings
        + (ingest_file "SonarQube" [] [Except.ok ProcessOutcome.Reopened]).1.reopened_findings :=
  (ingest_file_counts "SonarQube" [] [Except.ok ProcessOutcome.Reopened]).2.2.2.1

/-- Counterexample to C1 as stated: with one reopened outcome, the
`ingestion_logs` row records `updated_findings = 1` while the returned
result has `updated_findings = 0` — the row's count does not equal the
corresponding count in the returned `IngestionResult`. -/
theorem ingest_file_updated_mismatch :
    (ingest_file "SonarQube" [] [Except.ok ProcessOutcome.Reopened]).2.updated_findings
      ≠ (ingest_file "SonarQube" [] [Except.ok ProcessOutcome.Reopened]).1.updated_findings := by
  decide

/-- A SAST candidate with no rule_id, used to compare a finding with itself
under CR-6. -/
def cr6SelfCandidate : CorrelationCandidate :=
  ⟨1, FindingCategory.Sast, some 7, "SonarQube", [], ["CWE-89"], none,
   some "src/main/java/com/example/Dao.java", some "main", none, none, none⟩

/-- C2 (the code violates the claim): correlating a SAST candidate with no
rule_id against itself — same finding id, same application, same branch,
shared CWE, same file_path — emits a CR-6 grouped_under match, because the
self-match guard only fires when both rule_ids are present and equal. -/
theorem correlate_cr6_self_match :
    cr6SelfCandidate.rule_id = none ∧
    correlate_finding cr6SelfCandidate [cr6SelfCandidate]
      = [⟨1, "CR-6", RelationshipType.GroupedUnder, ConfidenceLevel.High,
          "Same CWE in same SAST file"⟩] := by
  decide

/-- `tenableLoop` partitions the rows: every row lands in findings, in
errors, or is an Info+General skip. -/
theorem tenableLoop_partition (rows : List (Except String TenableWasRecord)) :
    ∀ i, (tenableLoop i rows).1.length + (tenableLoop i rows).2.length
      + (rows.filter isInfoGeneral).length = rows.length := by
  induction rows with
  | nil => intro i; rfl
  | cons row rest ih =>
    intro i
    cases row with
    | ok record =>
      by_cases hskip : record.severity = "Info" ∧ record.family = "General"
      · have hig : isInfoGeneral (Except.ok record) = true := by
          simp [isInfoGeneral, hskip.1, hskip.2]
        simp only [tenableLoop, if_pos hskip, List.filter_cons, hig, if_true,
          List.length_cons]
        rw [← ih (i + 1)]
        omega
      · have hig : isInfoGeneral (Except.ok record) = false := by
          simp only [isInfoGeneral]
          simpa using hskip
        cases hconv : convert_record record i with
        | ok finding =>
          simp only [tenableLoop, if_neg hskip, hconv, List.filter_cons, hig,
            Bool.false_eq_true, if_false, List.length_cons]
          rw [← ih (i + 1)]
          omega
        | error err =>
          simp only [tenableLoop, if_neg hskip, hconv, List.filter_cons, hig,
            Bool.false_eq_true, if_false, List.length_cons]
          rw [← ih (i + 1)]
          omega
    | error e =>
      have hig : isInfoGeneral (Except.error e) = false := rfl
      simp only [tenableLoop, List.filter_cons, hig, Bool.false_eq_true, if_false,
        List.length_cons]
      rw [← ih (i + 1)]
      omega

/-- Every error of `tenableLoop` carries a record index at or above the
starting enumeration index. -/
theorem tenableLoop_index_ge (rows : List (Except String TenableWasRecord)) :
    ∀ i, ∀ e ∈ (tenableLoop i rows).2, i ≤ e.record_index := by
  induction rows with
  | nil => intro i e he; simp [tenableLoop] at he
  | cons row rest ih =>
    intro i e he
    cases row with
    | ok record =>
      by_cases hskip : record.severity = "Info" ∧ record.family = "General"
      · rw [show (tenableLoop i (Except.ok record :: rest)).2
            = (tenableLoop (i + 1) rest).2 from by simp [tenableLoop, if_pos hskip]] at he
        exact le_trans (Nat.le_succ i) (ih (i + 1) e he)
      · cases hconv : convert_record record i with
        | ok finding =>
          rw [show (tenableLoop i (Except.ok record :: rest)).2
              = (tenableLoop (i + 1) rest).2 from by
                simp [tenableLoop, if_neg hskip, hconv]] at he
          exact le_trans (Nat.le_succ i) (ih (i + 1) e he)
        | error err =>
          rw [show (tenableLoop i (Except.ok record :: rest)).2
              = err :: (tenableLoop (i + 1) rest).2 from by
                simp [tenableLoop, if_neg hskip, hconv]] at he
          rcases List.mem_cons.mp he with rfl | he
          · have hidx : e.record_index = i := by
              unfold convert_record at hconv
              by_cases hp : record.plugin.isEmpty
              · rw [if_pos hp] at hconv
                cases hconv
                rfl
              · rw [if_neg hp] at hconv
                cases hconv
            exact hidx ▸ le_refl i
          · exact le_trans (Nat.le_succ i) (ih (i + 1) e he)
    | error msg =>
      rw [show (tenableLoop i (Except.error msg :: rest)).2
          = ⟨i, "csv_row", "CSV parse error: " ++ msg⟩ :: (tenableLoop (i + 1) rest).2
          from by simp [tenableLoop]] at he
      rcases List.mem_cons.mp he with rfl | he
      · exact le_refl i
      · exact le_trans (Nat.le_succ i) (ih (i + 1) e he)

/-- No error of `tenableLoop` carries the enumeration index of a skipped
(Info+General) row. -/
theorem tenableLoop_skip_no_error (rows : List (Except String TenableWasRecord)) :
    ∀ i j r, rows[j]? = some (Except.ok r) → r.severity = "Info" → r.family = "General" →
      ∀ e ∈ (tenableLoop i rows).2, e.record_index ≠ i + j := by
  induction rows with
  | nil => intro i j r hj; simp at hj
  | cons row rest ih =>
    intro i j r hj hsev hfam e he hcontra
    cases j with
    | zero =>
      rw [List.getElem?_cons_zero] at hj
      obtain rfl := Option.some.inj hj
      have hskip : r.severity = "Info" ∧ r.family = "General" := ⟨hsev, hfam⟩
      rw [show (tenableLoop i (Except.ok r :: rest)).2 = (tenableLoop (i + 1) rest).2
          from by simp [tenableLoop, if_pos hskip]] at he
      have hge := tenableLoop_index_ge rest (i + 1) e he
      omega
    | succ j' =>
      rw [List.getElem?_cons_succ] at hj
      have hnext : e.record_index ≠ (i + 1) + j' :=
        fun hc => ih (i + 1) j' r hj hsev hfam e (by
          cases row with
          | ok record =>
            by_cases hskip : record.severity = "Info" ∧ record.family = "General"
            · rwa [show (tenableLoop i (Except.ok record :: rest)).2
                  = (tenableLoop (i + 1) rest).2 from by
                    simp [tenableLoop, if_pos hskip]] at he
            · cases hconv : convert_record record i with
              | ok finding =>
                rwa [show (tenableLoop i (Except.ok record :: rest)).2
                    = (tenableLoop (i + 1) rest).2 from by
                      simp [tenableLoop, if_neg hskip, hconv]] at he
              | error err =>
                rw [show (tenableLoop i (Except.ok record :: rest)).2
                    = err :: (tenableLoop (i + 1) rest).2 from by
                      simp [tenableLoop, if_neg hskip, hconv]] at he
                rcases List.mem_cons.mp he with rfl | he2
                · have hidx : e.record_index = i := by
                    unfold convert_record at hconv
                    by_cases hp : record.plugin.isEmpty
                    · rw [if_pos hp] at hconv
                      cases hconv
                      rfl
                    · rw [if_neg hp] at hconv
                      cases hconv
                  omega
                · exact he2
          | error msg =>
            rw [show (tenableLoop i (Except.error msg :: rest)).2
                = ⟨i, "csv_row", "CSV parse error: " ++ msg⟩ :: (tenableLoop (i + 1) rest).2
                from by simp [tenableLoop]] at he
            rcases List.mem_cons.mp he with rfl | he2
            · simp at hc
              omega
            · exact he2) hc
      omega

/-- C9: every Info+General Tenable WAS CSV record that deserializes
successfully is dropped silently by `parse_csv`: the findings, errors and
skipped Info+General rows exactly partition the input rows, and no error
entry carries the enumeration index of a skipped row. -/
theorem tenable_parse_csv_drops_info_general (rows : List (Except String TenableWasRecord)) :
    ((tenable_parse_csv rows).findings.length + (tenable_parse_csv rows).errors.length
        + (rows.filter isInfoGeneral).length = rows.length) ∧
    (∀ j r, rows[j]? = some (Except.ok r) → r.severity = "Info" → r.family = "General" →
      ∀ e ∈ (tenable_parse_csv rows).errors, e.record_index ≠ j) := by
  constructor
  · exact tenableLoop_partition rows 0
  · intro j r hj hs hf e he
    have h := tenableLoop_skip_no_error rows 0 j r hj hs hf e he
    simpa using h

/-- A concrete Info+General scan-metadata record. -/
def infoGeneralRec : TenableWasRecord :=
  ⟨"12345", "General", "Info", "", "", "", "", "", "", "", "", "", "", "", ""⟩

/-- Concrete witness for C9: a one-row input consisting of an Info+General
record yields no finding and no error — the row is counted only as skipped. -/
theorem tenable_parse_csv_drops_info_general_witness :
    ((tenable_parse_csv [Except.ok infoGeneralRec]).findings.length
        + (tenable_parse_csv [Except.ok infoGeneralRec]).errors.length
        + ([Except.ok infoGeneralRec].filter isInfoGeneral).length = 1) ∧
    (∀ e ∈ (tenable_parse_csv [Except.ok infoGeneralRec]).errors, e.record_index ≠ 0) :=
  ⟨(tenable_parse_csv_drops_info_general [Except.ok infoGeneralRec]).1,
   (tenable_parse_csv_drops_info_general [Except.ok infoGeneralRec]).2 0 infoGeneralRec
     rfl rfl rfl⟩

end Synapsec
